import Mathlib

/-!
Formal model of the Translingo backend (`backend/app.py`): language-code
normalization, per-script romanizers, the romanize dispatcher, the safe
language detector, and the translate-and-romanize pipeline.

The Python file in the repository is stored doubly encoded (its UTF-8 text
was decoded as cp1252 and re-encoded); the string literals below are the
decoded originals, with the five cp1252-undefined bytes restored from the
romanized values on the same source lines.

External collaborators (langid, deep-translator, pykakasi, pypinyin,
transliterate, hangul-romanize, indic-transliteration) are modelled as
parameters: a classifier `String → String × ℚ`, a translator and optional
per-script engines returning `Except String String` (an `Except.error`
models a raised exception).  Python string helpers (`split`, `strip`,
`lower`, `isalnum`, `replace`, `re.sub` of a word-bounded literal, and the
vowel-run collapsing regexes) are embedded below over `List Char`; `lower`
is modelled on ASCII letters, and `isalnum` on the character ranges this
program processes (ASCII alphanumerics, Arabic-script letters and digits,
Devanagari letters and digits), which agrees with Python on every string
appearing in this development.
-/

namespace Translingo

/-- Python `str.isspace` characters (the set `str.split`/`str.strip` split on). -/
def pyIsSpace (c : Char) : Bool :=
  c == ' ' || c == '\t' || c == '\n' || c == '\r' || c == '\x0b' || c == '\x0c' ||
  (0x1c ≤ c.toNat && c.toNat ≤ 0x1f) || c.toNat == 0x85 || c.toNat == 0xa0 ||
  c.toNat == 0x1680 || (0x2000 ≤ c.toNat && c.toNat ≤ 0x200a) ||
  c.toNat == 0x2028 || c.toNat == 0x2029 || c.toNat == 0x202f ||
  c.toNat == 0x205f || c.toNat == 0x3000

/-- Python `str.lower`, on the ASCII letters (sufficient for the codes and
romanized text this program lowercases). -/
def pyLower (s : String) : String := String.mk (s.data.map Char.toLower)

/-- Python `str.strip()` on a character list. -/
def pyStripList (l : List Char) : List Char :=
  ((l.dropWhile pyIsSpace).reverse.dropWhile pyIsSpace).reverse

/-- Python `str.strip()`. -/
def pyStrip (s : String) : String := String.mk (pyStripList s.data)

/-- Python `str.startswith`. -/
def pyStartsWith (s pre : String) : Bool := pre.data.isPrefixOf s.data

/-- Python `str.isalnum` restricted to the character ranges this program
meets: ASCII alphanumerics, Arabic-script letters and digits
(U+0620–U+064A, U+0660–U+0669, U+066E–U+066F, U+0671–U+06D3, U+06D5,
U+06E5–U+06E6, U+06EE–U+06FC, U+06FF), Devanagari letters and digits
(U+0904–U+0939, U+093D, U+0950, U+0958–U+0961, U+0966–U+096F,
U+0971–U+097F).  Combining marks and punctuation are not alphanumeric. -/
def pyIsAlnum (c : Char) : Bool :=
  let n := c.toNat
  (0x30 ≤ n && n ≤ 0x39) || (0x41 ≤ n && n ≤ 0x5a) || (0x61 ≤ n && n ≤ 0x7a) ||
  (0x620 ≤ n && n ≤ 0x64a) || (0x660 ≤ n && n ≤ 0x669) ||
  (0x66e ≤ n && n ≤ 0x66f) || (0x671 ≤ n && n ≤ 0x6d3) || n == 0x6d5 ||
  (0x6e5 ≤ n && n ≤ 0x6e6) || (0x6ee ≤ n && n ≤ 0x6fc) || n == 0x6ff ||
  (0x904 ≤ n && n ≤ 0x939) || n == 0x93d || n == 0x950 ||
  (0x958 ≤ n && n ≤ 0x961) || (0x966 ≤ n && n ≤ 0x96f) ||
  (0x971 ≤ n && n ≤ 0x97f)

/-- Substring test: Python `needle in hay`. -/
def listContainsSubstr (hay needle : List Char) : Bool :=
  needle.isPrefixOf hay ||
    match hay with
    | [] => false
    | _ :: t => listContainsSubstr t needle

/-- Python `needle in hay` on strings. -/
def pyContains (hay needle : String) : Bool := listContainsSubstr hay.data needle.data

/-- Helper for Python `str.split()`: `acc` holds the reversed current word. -/
def pySplitAux : List Char → List Char → List (List Char)
  | [], acc => if acc.isEmpty then [] else [acc.reverse]
  | c :: cs, acc =>
    if pyIsSpace c then
      if acc.isEmpty then pySplitAux cs [] else acc.reverse :: pySplitAux cs []
    else pySplitAux cs (c :: acc)

/-- Python `str.split()` (split on whitespace runs, dropping empty words). -/
def pySplitList (l : List Char) : List (List Char) := pySplitAux l []

/-- Python `str.split()`. -/
def pySplit (s : String) : List String := (pySplitList s.data).map String.mk

/-- Python `str.replace` (left-to-right, non-overlapping), with fuel; the
fuel is initialised to the string length, which each step decreases no
slower than the remaining text. -/
def pyReplaceFuel (pat rep : List Char) : Nat → List Char → List Char
  | 0, l => l
  | _ + 1, [] => []
  | fuel + 1, c :: cs =>
    if !pat.isEmpty && pat.isPrefixOf (c :: cs) then
      rep ++ pyReplaceFuel pat rep fuel ((c :: cs).drop pat.length)
    else
      c :: pyReplaceFuel pat rep fuel cs

/-- Python `s.replace(pat, rep)` for a non-empty pattern. -/
def pyReplace (s pat rep : String) : String :=
  String.mk (pyReplaceFuel pat.data rep.data s.data.length s.data)

/-- Word characters of the regex `\b` boundary (`\w`): alphanumerics and
underscore. -/
def pyIsWordChar (c : Char) : Bool := pyIsAlnum c || c == '_'

/-- A `\b` boundary holds between two (optional) characters when exactly one
side is a word character; the ends of the string count as non-word. -/
def wordBoundary (left right : Option Char) : Bool :=
  (match left with | none => false | some c => pyIsWordChar c) !=
  (match right with | none => false | some c => pyIsWordChar c)

/-- Python `re.sub(r"\b" + re.escape(pat) + r"\b", rep, s)`: replace each
non-overlapping, word-bounded occurrence of the literal `pat`, scanning
left to right.  `prev` is the input character just before the scan point. -/
def pySubWordFuel (pat rep : List Char) : Nat → Option Char → List Char → List Char
  | 0, _, l => l
  | _ + 1, _, [] => []
  | fuel + 1, prev, c :: cs =>
    if !pat.isEmpty && pat.isPrefixOf (c :: cs) &&
        wordBoundary prev pat.head? &&
        wordBoundary pat.getLast? ((c :: cs).drop pat.length).head? then
      rep ++ pySubWordFuel pat rep fuel pat.getLast? ((c :: cs).drop pat.length)
    else
      c :: pySubWordFuel pat rep fuel (some c) cs

/-- Word-bounded literal substitution on strings. -/
def pySubWord (s pat rep : String) : String :=
  String.mk (pySubWordFuel pat.data rep.data s.data.length none s.data)

/-- Python `re.sub(v v "+", rep, s)`: collapse each run of two or more
copies of `v` into `rep`; single copies stay. -/
def pyCollapseFuel (v : Char) (rep : List Char) : Nat → List Char → List Char
  | 0, l => l
  | _ + 1, [] => []
  | fuel + 1, c :: cs =>
    if c == v then
      match cs with
      | [] => [c]
      | d :: _ =>
        if d == v then
          rep ++ pyCollapseFuel v rep fuel (cs.dropWhile (fun e => e == v))
        else
          c :: pyCollapseFuel v rep fuel cs
    else
      c :: pyCollapseFuel v rep fuel cs

/-- Run collapsing on strings (the `aa+`, `ii+`, `uu+` regexes). -/
def pyCollapseRun (s : String) (v : Char) (rep : String) : String :=
  String.mk (pyCollapseFuel v rep.data s.data.length s.data)

/-- The apostrophe character, used as a romanized value in the char maps. -/
def apos : String := String.mk [Char.ofNat 39]

/-- The `replacements` table inside `clean_hinglish`, in source order. -/
def HINGLISH_REPLACEMENTS : List (String × String) :=
  [("maiM", "main"), ("tumase", "tumse"), ("pyAra", "pyaar"),
   ("karatA", "karta"), ("hU.n", "hoon"), ("hU.N", "hoon"),
   ("tumheM", "tumhe"), ("yAda", "yaad"), ("mujhe", "mujhe"),
   ("pUrA", "poora"), ("yakIna", "yakeen"), ("tuma", "tum"),
   ("aisA", "aisa"), ("karate", "karte")]

/-- `clean_hinglish` from `backend/app.py`: scrub academic ITRANS
romanization into casual Hinglish — diacritic digraphs, the word
substitution table, lowercasing, and vowel-run collapsing. -/
def clean_hinglish (itrans_text : String) : String :=
  let text := itrans_text
  let text := pyReplace (pyReplace (pyReplace text ".N" "n") "M" "n") "~N" "n"
  let text := pyReplace (pyReplace (pyReplace (pyReplace text ".a" "a") ".i" "i") ".u" "u") ".r" "r"
  let text := HINGLISH_REPLACEMENTS.foldl (fun t kv => pySubWord t kv.1 kv.2) text
  let text := pyLower text
  let text := pyCollapseRun text 'a' "aa"
  let text := pyCollapseRun text 'i' "i"
  let text := pyCollapseRun text 'u' "u"
  pyStrip text

/-- `LANG_MAP` from `backend/app.py`, in source order (note the capitalized
`"Dutch"` key). -/
def LANG_MAP : List (String × String) :=
  [("english", "en"), ("en", "en"),
   ("hindi", "hi"), ("hi", "hi"),
   ("japanese", "ja"), ("ja", "ja"),
   ("korean", "ko"), ("ko", "ko"),
   ("spanish", "es"), ("es", "es"),
   ("french", "fr"), ("fr", "fr"),
   ("turkish", "tr"), ("tr", "tr"),
   ("Dutch", "nl"), ("nl", "nl"),
   ("german", "de"), ("de", "de"),
   ("russian", "ru"), ("ru", "ru"),
   ("italian", "it"), ("it", "it"),
   ("chinese", "zh-CN"), ("zh", "zh-CN"), ("zh-cn", "zh-CN"), ("zh-tw", "zh-TW"),
   ("latin", "la"), ("la", "la"),
   ("cyrillic", "ru"), ("sr", "sr")]

/-- `normalize_target_lang` from `backend/app.py`. -/
def normalize_target_lang (inp : String) : String :=
  if inp == "" then "en"
  else
    let key := pyLower (pyStrip inp)
    (LANG_MAP.lookup key).getD key

/-- `URDU_WORD_MAP` from `backend/app.py`. -/
def URDU_WORD_MAP : List (String × String) :=
  [("میں", "main"), ("تم", "tum"), ("آپ", "aap"), ("ہم", "hum"),
   ("وہ", "woh"), ("یہ", "yeh"), ("وہاں", "wahan"), ("یہاں", "yahan"),
   ("میرا", "mera"), ("میری", "meri"), ("میرے", "mere"),
   ("ہمارا", "hamara"), ("ہماری", "hamari"), ("ہمارے", "hamare"),
   ("سلام", "salaam"), ("ہیلو", "hello"), ("ہائے", "hi"),
   ("کیسے", "kaise"), ("ہوں", "hoon"), ("ہے", "hai"), ("ہیں", "hain"),
   ("ہاں", "haan"), ("نہیں", "nahin"), ("ٹھیک", "theek"),
   ("کرنا", "karna"), ("کرتا", "karta"), ("کرتی", "karti"),
   ("جانا", "jana"), ("جاتا", "jata"), ("جاتی", "jati"),
   ("کھانا", "khana"), ("پینا", "peena"), ("سونا", "sona"),
   ("دیکھنا", "dekhna"), ("آنا", "aana"), ("دینا", "dena"), ("لینا", "lena"),
   ("آج", "aaj"), ("کل", "kal"), ("اب", "ab"), ("پھر", "phir"),
   ("صبح", "subah"), ("شام", "shaam"), ("رات", "raat"), ("دن", "din"),
   ("ہفتہ", "hafta"), ("مہینہ", "mahina"), ("سال", "saal"),
   ("پیار", "pyaar"), ("محبت", "mohabbat"), ("خوشی", "khushi"),
   ("غم", "gham"), ("زندگی", "zindagi"), ("دل", "dil"),
   ("دنیا", "duniya"), ("اللہ", "Allah"), ("انسان", "insaan"),
   ("ایک", "ek"), ("دو", "do"), ("تین", "teen"), ("چار", "chaar"), ("پانچ", "paanch"),
   ("چھ", "chhay"), ("سات", "saat"), ("آٹھ", "aath"), ("نو", "nau"), ("دس", "das"),
   ("ٹکنالوجی", "Technology"),
   ("ٹول", "tool"),
   ("باکس", "box"), ("خلا", "space")]

/-- `URDU_CHAR_MAP` from `backend/app.py`. -/
def URDU_CHAR_MAP : List (Char × String) :=
  [('ا', "a"), ('آ', "aa"),
   ('ب', "b"), ('پ', "p"),
   ('ت', "t"), ('ٹ', "t"),
   ('ث', "s"),
   ('ج', "j"), ('چ', "ch"),
   ('ح', "h"), ('خ', "kh"),
   ('د', "d"), ('ڈ', "d"),
   ('ذ', "z"),
   ('ر', "r"), ('ڑ', "r"),
   ('ز', "z"), ('ژ', "zh"),
   ('س', "s"), ('ش', "sh"),
   ('ص', "s"), ('ض', "z"),
   ('ط', "t"), ('ظ', "z"),
   ('ع', apos), ('غ', "gh"),
   ('ف', "f"),
   ('ق', "q"),
   ('ک', "k"), ('گ', "g"),
   ('ل', "l"),
   ('م', "m"),
   ('ن', "n"), ('ں', "n"),
   ('و', "o"), ('ؤ', "o"),
   ('ہ', "h"), ('ھ', "h"),
   ('ی', "y"), ('ے', "e"), ('ئ', "i"),
   ('ء', apos), ('ٓ', ""), ('ٔ', "")]

/-- One token of `romanize_urdu_text`: exact word-map lookup, then
punctuation stripping into `pre`/`suf`, word-map lookup of the stripped
core, and a character-map fallback, reattaching `pre` and `suf`. -/
def romanize_urdu_token (w : String) : String :=
  match URDU_WORD_MAP.lookup w with
  | some v => v
  | none =>
    let pre := w.data.takeWhile (fun c => !pyIsAlnum c)
    let rest := w.data.dropWhile (fun c => !pyIsAlnum c)
    let suf := (rest.reverse.takeWhile (fun c => !pyIsAlnum c)).reverse
    let core := (rest.reverse.dropWhile (fun c => !pyIsAlnum c)).reverse
    if core.isEmpty then String.mk (pre ++ suf)
    else
      match URDU_WORD_MAP.lookup (String.mk core) with
      | some v => String.mk pre ++ v ++ String.mk suf
      | none =>
        String.mk pre ++
          String.join (core.map fun ch => (URDU_CHAR_MAP.lookup ch).getD (String.mk [ch])) ++
          String.mk suf

/-- `romanize_urdu_text` from `backend/app.py`. -/
def romanize_urdu_text (text : String) : String :=
  String.intercalate " " ((pySplit text).map romanize_urdu_token)

/-- `ARABIC_CHAR_MAP` from `backend/app.py`. -/
def ARABIC_CHAR_MAP : List (Char × String) :=
  [('ا', "a"), ('ب', "b"), ('ت', "t"), ('ث', "th"), ('ج', "j"), ('ح', "h"), ('خ', "kh"),
   ('د', "d"), ('ذ', "dh"), ('ر', "r"), ('ز', "z"), ('س', "s"), ('ش', "sh"), ('ص', "s"),
   ('ض', "d"), ('ط', "t"), ('ظ', "z"), ('ع', apos), ('غ', "gh"), ('ف', "f"), ('ق', "q"),
   ('ک', "k"), ('گ', "g"), ('ل', "l"), ('م', "m"), ('ن', "n"), ('و', "u"), ('ه', "h"),
   ('ی', "y"), ('ء', apos), ('أ', "a"), ('إ', "i"), ('ؤ', "u"), ('ئ', "i"), ('ى', "a"),
   ('آ', "aa"), ('ة', "a"), ('چ', "che"), ('ي', "i"), ('ك', "ek"), ('پ', "p")]

/-- The per-character image used by `romanize_arabic_like`
(`ARABIC_CHAR_MAP.get(ch, ch)`). -/
def arabicCharImage (ch : Char) : String :=
  (ARABIC_CHAR_MAP.lookup ch).getD (String.mk [ch])

/-- Character-list form of `romanize_arabic_like`: the `''.join` of the
per-character images. -/
def arabicMapList (l : List Char) : List Char :=
  (l.map fun ch => (arabicCharImage ch).data).flatten

/-- `romanize_arabic_like` from `backend/app.py`: map every character
independently, unknown characters passing through. -/
def romanize_arabic_like (text : String) : String :=
  String.mk (arabicMapList text.data)

/-- `HINDI_WORD_MAP` from `backend/app.py`. -/
def HINDI_WORD_MAP : List (String × String) :=
  [("मैं", "main"), ("तुम", "tum"), ("आप", "aap"), ("हम", "hum"),
   ("वह", "vah"), ("ये", "ye"), ("यह", "yeh"), ("वे", "ve"),
   ("मेरा", "mera"), ("मेरी", "meri"), ("मेरे", "mere"),
   ("हमारा", "hamara"), ("हमारी", "hamari"), ("हमारे", "hamare"),
   ("नमस्ते", "namaste"), ("शुभ", "shubh"), ("प्रणाम", "pranam"),
   ("कैसे", "kaise"), ("हो", "ho"), ("हूँ", "hoon"), ("हैं", "hain"), ("है", "hai"),
   ("हाँ", "haan"), ("नहीं", "nahin"), ("ठीक", "theek"),
   ("करना", "karna"), ("करते", "karte"), ("करती", "kartii"), ("कर", "kar"),
   ("जाना", "jana"), ("जाता", "jata"), ("जाती", "jati"),
   ("खाना", "khana"), ("पीना", "peena"), ("सोना", "sona"),
   ("देखना", "dekhna"), ("आना", "aana"), ("देना", "dena"), ("लेना", "lena"),
   ("आज", "aaj"), ("कल", "kal"), ("अब", "ab"), ("फिर", "phir"),
   ("सुबह", "subah"), ("शाम", "shaam"), ("रात", "raat"), ("दिन", "din"),
   ("सप्ताह", "saptah"), ("महीना", "mahina"), ("साल", "saal"),
   ("प्यार", "pyaar"), ("प्रेम", "prem"), ("खुशी", "khushi"),
   ("दुख", "dukh"), ("जीवन", "jeevan"), ("दिल", "dil"),
   ("दुनिया", "duniya"), ("भगवान", "bhagwan"),
   ("एक", "ek"), ("दो", "do"), ("तीन", "teen"), ("चार", "chaar"), ("पांच", "paanch"),
   ("छह", "chhah"), ("सात", "saat"), ("आठ", "aath"), ("नौ", "nau"), ("दस", "das")]

/-- `HINDI_CHAR_MAP` from `backend/app.py`, keyed by strings as in the
Python dict: the conjunct and nukta entries have keys of two or three
characters, which the per-character lookup in `romanize_hindi_text` can
never match (kept verbatim from the source).  The source genuinely maps
the short signs U+0946 and U+094A rather than the common U+0947/U+094B. -/
def HINDI_CHAR_MAP : List (String × String) :=
  [("अ", "a"), ("आ", "aa"), ("इ", "i"), ("ई", "ee"),
   ("उ", "u"), ("ऊ", "oo"), ("ऋ", "ri"), ("ॠ", "ri"),
   ("ए", "e"), ("ऐ", "ai"), ("ओ", "o"), ("औ", "au"),
   ("ॐ", "om"),
   ("क", "k"), ("ख", "kh"), ("ग", "g"), ("घ", "gh"), ("ङ", "n"),
   ("च", "ch"), ("छ", "chh"), ("ज", "j"), ("झ", "jh"), ("ञ", "n"),
   ("ट", "t"), ("ठ", "th"), ("ड", "d"), ("ढ", "dh"), ("ण", "n"),
   ("त", "t"), ("थ", "th"), ("द", "d"), ("ध", "dh"), ("न", "n"),
   ("प", "p"), ("फ", "ph"), ("ब", "b"), ("भ", "bh"), ("म", "m"),
   ("य", "y"), ("र", "r"), ("ल", "l"), ("व", "v"),
   ("श", "sh"), ("ष", "sh"), ("स", "s"), ("ह", "h"),
   ("क्ष", "ksh"), ("त्र", "tr"), ("ज्ञ", "gy"),
   ("क़", "q"), ("ख़", "kh"), ("ग़", "gh"), ("ज़", "z"), ("ड़", "r"), ("ढ़", "rh"),
   ("फ़", "f"), ("झ़", "zh"),
   ("ं", "n"), ("ँ", "n"), ("ः", "h"), ("़", ""), ("्", ""),
   ("ौ", "au"), ("ै", "ai"), ("ॉ", "o"), ("ॆ", "e"), ("ॊ", "o")]

/-- One token of `romanize_hindi_text`: word-map lookup, else whole-token
character mapping (no punctuation stripping, unlike the Urdu romanizer). -/
def romanize_hindi_token (w : String) : String :=
  match HINDI_WORD_MAP.lookup w with
  | some v => v
  | none =>
    String.join (w.data.map fun ch =>
      (HINDI_CHAR_MAP.lookup (String.mk [ch])).getD (String.mk [ch]))

/-- `romanize_hindi_text` from `backend/app.py`. -/
def romanize_hindi_text (text : String) : String :=
  String.intercalate " " ((pySplit text).map romanize_hindi_token)

/-- The process-wide optional external-engine handles of `backend/app.py`.
`none` models a library whose import failed; a present engine is a call
that either returns a string or raises (`Except.error`).  `pykakasi`
stands for the composite `pykakasi.kakasi().convert` plus the hepburn
join; `translit` takes the text and the transliterate language pack
(`"ru"` or `"el"`); `indic` stands for
`transliterate(text, DEVANAGARI, ITRANS)` with `sanscript` present. -/
structure Engines where
  pykakasi : Option (String → Except String String)
  lazy_pinyin : Option (String → Except String String)
  korean_trans : Option (String → Except String String)
  translit : Option (String → String → Except String String)
  indic : Option (String → Except String String)

/-- The Japanese branch test: `lc.startswith('ja') or lc == 'japanese'`. -/
def jaCode (lc : String) : Bool := pyStartsWith lc "ja" || lc == "japanese"

/-- The Chinese branch test: `lc.startswith('zh')`. -/
def zhCode (lc : String) : Bool := pyStartsWith lc "zh"

/-- The Korean branch test: `lc.startswith('ko') or lc == 'korean'`. -/
def koCode (lc : String) : Bool := pyStartsWith lc "ko" || lc == "korean"

/-- The Urdu branch test: `lc == 'ur' or lc == 'urdu'`. -/
def urCode (lc : String) : Bool := lc == "ur" || lc == "urdu"

/-- The Hindi branch test: `lc == 'hi' or lc == 'hindi'`. -/
def hiCode (lc : String) : Bool := lc == "hi" || lc == "hindi"

/-- The Arabic/Persian branch test:
`lc in ('ar', 'arabic', 'fa', 'persian', 'farsi')`. -/
def arCode (lc : String) : Bool :=
  lc == "ar" || lc == "arabic" || lc == "fa" || lc == "persian" || lc == "farsi"

/-- The Cyrillic branch test: `lc in ('ru', 'sr', 'cyrillic', 'russian')`. -/
def cyrCode (lc : String) : Bool :=
  lc == "ru" || lc == "sr" || lc == "cyrillic" || lc == "russian"

/-- The Greek branch test: `lc in ('el', 'greek')`. -/
def elCode (lc : String) : Bool := lc == "el" || lc == "greek"

/-- The Latin-script branch test: membership in the source's tuple of codes
and names. -/
def latinCode (lc : String) : Bool :=
  lc == "en" || lc == "fr" || lc == "es" || lc == "it" || lc == "la" ||
  lc == "de" || lc == "pt" || lc == "spanish" || lc == "french" ||
  lc == "italian" || lc == "latin"

/-- `romanize_text` from `backend/app.py`, the romanize dispatcher.  An
`Except.error` result models an uncaught Python exception: the Japanese
branch calls its engine with no `try`, every other engine branch catches
and falls back (`(lang_code or '').lower()` is the identity on strings,
since only `''` is falsy). -/
def romanize_text (eng : Engines) (text lang_code : String) : Except String String :=
  if text == "" then .ok text
  else
    let lc := pyLower lang_code
    if jaCode lc then
      match eng.pykakasi with
      | some k => k text
      | none => .ok text
    else if zhCode lc then
      match eng.lazy_pinyin with
      | some p => match p text with
        | .ok r => .ok r
        | .error _ => .ok text
      | none => .ok text
    else if koCode lc then
      match eng.korean_trans with
      | some k => match k text with
        | .ok r => .ok r
        | .error _ => .ok text
      | none => .ok text
    else if urCode lc then .ok (romanize_urdu_text text)
    else if hiCode lc then
      match eng.indic with
      | some tr => match tr text with
        | .ok raw => .ok (clean_hinglish raw)
        | .error _ => .ok (romanize_hindi_text text)
      | none => .ok (romanize_hindi_text text)
    else if arCode lc then .ok (romanize_arabic_like text)
    else if cyrCode lc then
      match eng.translit with
      | some f => match f text "ru" with
        | .ok r => .ok r
        | .error _ => .ok text
      | none => .ok text
    else if elCode lc then
      match eng.translit with
      | some f => match f text "el" with
        | .ok r => .ok r
        | .error _ => .ok text
      | none => .ok text
    else if latinCode lc then .ok text
    else .ok text

/-- The fixed English marker substrings of `detect_language_safely`. -/
def ENGLISH_SIGNALS : List String :=
  ["the ", " and ", " how ", " you", " is ", " are ", " hello", " hi "]

/-- `detect_language_safely` from `backend/app.py`.  The langid classifier
is passed in as `classify`; its confidence is modelled as a rational. -/
def detect_language_safely (classify : String → String × ℚ) (text : String) : String :=
  if text == "" || pyStrip text == "" then "unknown"
  else
    let r := classify text
    if r.2 < 9 / 10 then
      let num_ascii := (text.data.filter fun ch => ch.toNat < 128).length
      if ((num_ascii : ℚ) / ((max 1 text.length : ℕ) : ℚ)) > 9 / 10 then
        let lowers := pyLower text
        if ENGLISH_SIGNALS.any (fun sig => pyContains lowers sig) then "en" else r.1
      else r.1
    else r.1

/-- `translate_and_romanize` from `backend/app.py`.  The external
translation call (GoogleTranslator construction plus `.translate`) is the
parameter `translator`, taking the normalized target code and the text; a
raised provider error is `Except.error` and is converted to the literal
diagnostic string.  The romanization step is outside any `try`, so its
error (possible only on the Japanese engine path) propagates. -/
def translate_and_romanize (eng : Engines) (classify : String → String × ℚ)
    (translator : String → String → Except String String)
    (text target_lang_code : String) : Except String (String × String × String) :=
  let src := detect_language_safely classify text
  let tgt := normalize_target_lang target_lang_code
  let translated :=
    match translator tgt text with
    | .ok t => t
    | .error e => "(translation error: " ++ e ++ ")"
  match romanize_text eng translated tgt with
  | .ok roman => .ok (src, translated, roman)
  | .error e => .error e

/-- All optional libraries absent (every import failed). -/
def enginesNone : Engines := ⟨none, none, none, none, none⟩

/-- Every optional engine present but raising on every call. -/
def enginesFailing : Engines :=
  ⟨some fun _ => .error "engine failure",
   some fun _ => .error "engine failure",
   some fun _ => .error "engine failure",
   some fun _ _ => .error "engine failure",
   some fun _ => .error "engine failure"⟩

/-- A target code matched by no dispatcher branch: not a
Japanese/Chinese/Korean prefix, not Urdu/Hindi exact, and in none of the
Arabic, Cyrillic, Greek or Latin sets. -/
def dispatcherUnmatched (lang_code : String) : Bool :=
  let lc := pyLower lang_code
  !jaCode lc && !zhCode lc && !koCode lc && !urCode lc && !hiCode lc &&
  !arCode lc && !cyrCode lc && !elCode lc && !latinCode lc

/-- A stub classifier that is fully confident in English. -/
def clfEnHigh : String → String × ℚ := fun _ => ("en", 1)

/-- A stub classifier reporting French at low confidence. -/
def clfFrLow : String → String × ℚ := fun _ => ("fr", 1 / 2)

/-- A stub classifier reporting Russian at high confidence. -/
def clfRuHigh : String → String × ℚ := fun _ => ("ru", 19 / 20)

/-- A stub translation service that always raises. -/
def trFailNet : String → String → Except String String := fun _ _ => .error "net down"

section Lemmas

/-- A successful association-list lookup witnesses membership. -/
lemma lookup_mem {α β : Type} [BEq α] [LawfulBEq α] {a : α} {b : β} :
    ∀ {l : List (α × β)}, l.lookup a = some b → (a, b) ∈ l := by
  intro l
  induction l with
  | nil => intro h; simp [List.lookup] at h
  | cons p t ih =>
    obtain ⟨k, v⟩ := p
    intro h
    rw [List.lookup] at h
    cases hk : (a == k) with
    | true =>
      rw [hk] at h
      obtain rfl : v = b := by simpa using h
      obtain rfl : a = k := eq_of_beq hk
      exact List.mem_cons_self _ _
    | false =>
      rw [hk] at h
      exact List.mem_cons_of_mem _ (ih h)

/-- A two-character prefix determines the first two characters. -/
lemma isPrefixOf_two {a b : Char} {l : List Char}
    (h : [a, b].isPrefixOf l = true) : ∃ r, l = a :: b :: r := by
  cases l with
  | nil => simp [List.isPrefixOf] at h
  | cons x t =>
    cases t with
    | nil => simp [List.isPrefixOf] at h
    | cons y r =>
      simp [List.isPrefixOf] at h
      exact ⟨r, by rw [h.1, h.2]⟩

/-- Two distinct two-character prefixes cannot both hold. -/
lemma isPrefixOf_two_ne {a b a' b' : Char} {l : List Char}
    (h : [a, b].isPrefixOf l = true) (hne : a ≠ a') :
    [a', b'].isPrefixOf l = false := by
  obtain ⟨r, hr⟩ := isPrefixOf_two h
  by_cases hp : [a', b'].isPrefixOf l = true
  · obtain ⟨r2, hr2⟩ := isPrefixOf_two hp
    rw [hr] at hr2
    injection hr2 with h1 _
    exact absurd h1 hne
  · cases hb : [a', b'].isPrefixOf l with
    | false => rfl
    | true => exact absurd hb hp

/-- A Chinese-prefixed code is not matched by the Japanese branch. -/
lemma zh_excl {lc : String} (h : zhCode lc = true) : jaCode lc = false := by
  unfold zhCode pyStartsWith at h
  have hpre : (['z', 'h'] : List Char).isPrefixOf lc.data = true := h
  have hja : (['j', 'a'] : List Char).isPrefixOf lc.data = false :=
    isPrefixOf_two_ne hpre (by decide)
  have hjap : (lc == "japanese") = false := by
    by_cases he : lc = "japanese"
    · rw [he] at hpre; exact absurd hpre (by decide)
    · simp [he]
  simp [jaCode, pyStartsWith, hja, hjap]

/-- A Korean-matched code is matched by neither the Japanese nor the
Chinese branch. -/
lemma ko_excl {lc : String} (h : koCode lc = true) :
    jaCode lc = false ∧ zhCode lc = false := by
  unfold koCode pyStartsWith at h
  simp only [Bool.or_eq_true] at h
  rcases h with h | h
  · have hpre : (['k', 'o'] : List Char).isPrefixOf lc.data = true := h
    have hja : (['j', 'a'] : List Char).isPrefixOf lc.data = false :=
      isPrefixOf_two_ne hpre (by decide)
    have hzh : (['z', 'h'] : List Char).isPrefixOf lc.data = false :=
      isPrefixOf_two_ne hpre (by decide)
    have hjap : (lc == "japanese") = false := by
      by_cases he : lc = "japanese"
      · rw [he] at hpre; exact absurd hpre (by decide)
      · simp [he]
    exact ⟨by simp [jaCode, pyStartsWith, hja, hjap], by simp [zhCode, pyStartsWith, hzh]⟩
  · obtain rfl : lc = "korean" := by simpa using h
    exact ⟨by decide, by decide⟩

/-- A cyrillic-set code is matched by no earlier dispatcher branch. -/
lemma cyr_excl {lc : String} (h : cyrCode lc = true) :
    jaCode lc = false ∧ zhCode lc = false ∧ koCode lc = false ∧
    urCode lc = false ∧ hiCode lc = false ∧ arCode lc = false := by
  simp only [cyrCode, Bool.or_eq_true, beq_iff_eq] at h
  rcases h with ((h | h) | h) | h <;> subst h <;> exact by decide

/-- A Greek-set code is matched by no earlier dispatcher branch. -/
lemma el_excl {lc : String} (h : elCode lc = true) :
    jaCode lc = false ∧ zhCode lc = false ∧ koCode lc = false ∧
    urCode lc = false ∧ hiCode lc = false ∧ arCode lc = false ∧
    cyrCode lc = false := by
  simp only [elCode, Bool.or_eq_true, beq_iff_eq] at h
  rcases h with h | h <;> subst h <;> exact by decide

/-- A Latin-set code is matched by no earlier dispatcher branch. -/
lemma latin_excl {lc : String} (h : latinCode lc = true) :
    jaCode lc = false ∧ zhCode lc = false ∧ koCode lc = false ∧
    urCode lc = false ∧ hiCode lc = false ∧ arCode lc = false ∧
    cyrCode lc = false ∧ elCode lc = false := by
  simp only [latinCode, Bool.or_eq_true, beq_iff_eq] at h
  rcases h with ((((((((((h | h) | h) | h) | h) | h) | h) | h) | h) | h) | h) <;> subst h <;>
    exact by decide

/-- When no dispatcher branch before the Latin test matches, the dispatcher
returns the input unchanged (both the Latin branch and the default). -/
lemma romanize_passthrough (eng : Engines) (t c : String)
    (h1 : jaCode (pyLower c) = false) (h2 : zhCode (pyLower c) = false)
    (h3 : koCode (pyLower c) = false) (h4 : urCode (pyLower c) = false)
    (h5 : hiCode (pyLower c) = false) (h6 : arCode (pyLower c) = false)
    (h7 : cyrCode (pyLower c) = false) (h8 : elCode (pyLower c) = false) :
    romanize_text eng t c = .ok t := by
  by_cases ht : t = ""
  · subst ht; simp [romanize_text]
  · simp [romanize_text, ht, h1, h2, h3, h4, h5, h6, h7, h8]

/-- The dispatcher never errors, provided a present Japanese engine does
not raise on the given text (every other engine call is guarded). -/
lemma romanize_isOk (eng : Engines) (t c : String)
    (hja : ∀ f, eng.pykakasi = some f → (f t).isOk = true) :
    (romanize_text eng t c).isOk = true := by
  unfold romanize_text
  by_cases ht : t = ""
  · subst ht; rfl
  · rw [if_neg (by simp [ht])]
    by_cases h1 : jaCode (pyLower c) = true
    · rw [if_pos h1]
      cases hk : eng.pykakasi with
      | none => rfl
      | some f => exact hja f hk
    · rw [if_neg h1]
      by_cases h2 : zhCode (pyLower c) = true
      · rw [if_pos h2]
        cases hk : eng.lazy_pinyin with
        | none => rfl
        | some p => cases hp : p t <;> simp [hp, Except.isOk, Except.toBool]
      · rw [if_neg h2]
        by_cases h3 : koCode (pyLower c) = true
        · rw [if_pos h3]
          cases hk : eng.korean_trans with
          | none => rfl
          | some p => cases hp : p t <;> simp [hp, Except.isOk, Except.toBool]
        · rw [if_neg h3]
          by_cases h4 : urCode (pyLower c) = true
          · rw [if_pos h4]; rfl
          · rw [if_neg h4]
            by_cases h5 : hiCode (pyLower c) = true
            · rw [if_pos h5]
              cases hk : eng.indic with
              | none => rfl
              | some p => cases hp : p t <;> simp [hp, Except.isOk, Except.toBool]
            · rw [if_neg h5]
              by_cases h6 : arCode (pyLower c) = true
              · rw [if_pos h6]; rfl
              · rw [if_neg h6]
                by_cases h7 : cyrCode (pyLower c) = true
                · rw [if_pos h7]
                  cases hk : eng.translit with
                  | none => rfl
                  | some p => cases hp : p t "ru" <;> simp [hp, Except.isOk, Except.toBool]
                · rw [if_neg h7]
                  by_cases h8 : elCode (pyLower c) = true
                  · rw [if_pos h8]
                    cases hk : eng.translit with
                    | none => rfl
                    | some p => cases hp : p t "el" <;> simp [hp, Except.isOk, Except.toBool]
                  · rw [if_neg h8]
                    by_cases h9 : latinCode (pyLower c) = true
                    · rw [if_pos h9]; rfl
                    · rw [if_neg h9]; rfl

/-- Every character of every value of `ARABIC_CHAR_MAP` is itself outside
the map's keys. -/
lemma arabic_value_chars_unmapped :
    ∀ p ∈ ARABIC_CHAR_MAP, ∀ d ∈ p.2.data, ARABIC_CHAR_MAP.lookup d = none := by
  decide

/-- Every character of the per-character image is outside the map's keys. -/
lemma arabicImage_unmapped (c : Char) :
    ∀ d ∈ (arabicCharImage c).data, ARABIC_CHAR_MAP.lookup d = none := by
  intro d hd
  unfold arabicCharImage at hd
  cases hx : ARABIC_CHAR_MAP.lookup c with
  | none =>
    rw [hx] at hd
    obtain rfl : d = c := List.mem_singleton.mp hd
    exact hx
  | some v =>
    rw [hx] at hd
    exact arabic_value_chars_unmapped (c, v) (lookup_mem hx) d hd

/-- The Arabic character map distributes over list append. -/
lemma arabicMapList_append (l1 l2 : List Char) :
    arabicMapList (l1 ++ l2) = arabicMapList l1 ++ arabicMapList l2 := by
  simp [arabicMapList]

/-- On a list of characters outside the map, the Arabic character map is
the identity. -/
lemma arabicMapList_of_unmapped :
    ∀ l : List Char, (∀ d ∈ l, ARABIC_CHAR_MAP.lookup d = none) →
      arabicMapList l = l := by
  intro l
  induction l with
  | nil => intro _; rfl
  | cons c cs ih =>
    intro h
    have hc : arabicCharImage c = String.mk [c] := by
      unfold arabicCharImage
      rw [h c (List.mem_cons_self c cs)]
      rfl
    calc arabicMapList (c :: cs)
        = (arabicCharImage c).data ++ arabicMapList cs := by simp [arabicMapList]
      _ = [c] ++ arabicMapList cs := by rw [hc]
      _ = c :: cs := by rw [ih fun d hd => h d (List.mem_cons_of_mem _ hd)]; rfl

/-- The Arabic character map is idempotent on character lists. -/
lemma arabicMapList_idem : ∀ l : List Char, arabicMapList (arabicMapList l) = arabicMapList l := by
  intro l
  induction l with
  | nil => rfl
  | cons c cs ih =>
    have h1 : arabicMapList (c :: cs) = (arabicCharImage c).data ++ arabicMapList cs := by
      simp [arabicMapList]
    rw [h1, arabicMapList_append, ih,
      arabicMapList_of_unmapped _ (arabicImage_unmapped c), ← h1]

/-- An association-list lookup of a key held by no entry returns `none`. -/
lemma lookup_eq_none {α β : Type} [BEq α] [LawfulBEq α] {a : α} {l : List (α × β)}
    (h : ∀ b : β, (a, b) ∉ l) : l.lookup a = none := by
  cases hx : l.lookup a with
  | none => rfl
  | some b => exact absurd (lookup_mem hx) (h b)

/-- Every `URDU_WORD_MAP` key contains a character that `URDU_CHAR_MAP`
maps. -/
lemma urdu_word_keys_mapped_char :
    ∀ p ∈ URDU_WORD_MAP, ∃ ch ∈ p.1.data, URDU_CHAR_MAP.lookup ch ≠ none := by
  decide

/-- Every `HINDI_WORD_MAP` key contains a character whose singleton string
`HINDI_CHAR_MAP` maps. -/
lemma hindi_word_keys_mapped_char :
    ∀ p ∈ HINDI_WORD_MAP,
      ∃ ch ∈ p.1.data, HINDI_CHAR_MAP.lookup (String.mk [ch]) ≠ none := by
  decide

/-- A string whose characters all miss `URDU_CHAR_MAP` is no
`URDU_WORD_MAP` key. -/
lemma urdu_lookup_none_of_unmapped {w : String}
    (h : ∀ ch ∈ w.data, URDU_CHAR_MAP.lookup ch = none) :
    URDU_WORD_MAP.lookup w = none :=
  lookup_eq_none fun v hv => by
    obtain ⟨ch, hc1, hc2⟩ := urdu_word_keys_mapped_char (w, v) hv
    exact hc2 (h ch hc1)

/-- A string whose characters' singletons all miss `HINDI_CHAR_MAP` is no
`HINDI_WORD_MAP` key. -/
lemma hindi_lookup_none_of_unmapped {w : String}
    (h : ∀ ch ∈ w.data, HINDI_CHAR_MAP.lookup (String.mk [ch]) = none) :
    HINDI_WORD_MAP.lookup w = none :=
  lookup_eq_none fun v hv => by
    obtain ⟨ch, hc1, hc2⟩ := hindi_word_keys_mapped_char (w, v) hv
    exact hc2 (h ch hc1)

/-- Joining the singleton strings of a character list rebuilds the
string. -/
lemma join_singletons (l : List Char) :
    String.join (l.map fun ch => String.mk [ch]) = String.mk l := by
  rw [String.join_eq]
  exact congrArg String.mk (by
    induction l with
    | nil => rfl
    | cons c cs ih => simpa using ih)

/-- The Urdu per-character fallback is the identity on unmapped
characters. -/
lemma urdu_char_fallback {l : List Char}
    (h : ∀ ch ∈ l, URDU_CHAR_MAP.lookup ch = none) :
    String.join (l.map fun ch => (URDU_CHAR_MAP.lookup ch).getD (String.mk [ch])) =
      String.mk l := by
  have he : l.map (fun ch => (URDU_CHAR_MAP.lookup ch).getD (String.mk [ch])) =
      l.map (fun ch => String.mk [ch]) :=
    List.map_congr_left fun ch hc => by rw [h ch hc]; rfl
  rw [he, join_singletons]

/-- The Hindi per-character fallback is the identity on characters whose
singleton strings are unmapped. -/
lemma hindi_char_fallback {l : List Char}
    (h : ∀ ch ∈ l, HINDI_CHAR_MAP.lookup (String.mk [ch]) = none) :
    String.join (l.map fun ch =>
        (HINDI_CHAR_MAP.lookup (String.mk [ch])).getD (String.mk [ch])) =
      String.mk l := by
  have he : l.map (fun ch => (HINDI_CHAR_MAP.lookup (String.mk [ch])).getD (String.mk [ch])) =
      l.map (fun ch => String.mk [ch]) :=
    List.map_congr_left fun ch hc => by rw [h ch hc]; rfl
  rw [he, join_singletons]

/-- A token whose characters all miss `URDU_CHAR_MAP` comes back from
`romanize_urdu_token` unchanged: neither the token nor its stripped core
can be a word-map key, and the per-character fallback is the identity. -/
lemma romanize_urdu_token_unmapped (w : String)
    (h : ∀ ch ∈ w.data, URDU_CHAR_MAP.lookup ch = none) :
    romanize_urdu_token w = w := by
  unfold romanize_urdu_token
  simp only [urdu_lookup_none_of_unmapped h]
  set pre := w.data.takeWhile (fun c => !pyIsAlnum c) with hpre
  set rest := w.data.dropWhile (fun c => !pyIsAlnum c) with hrest
  set suf := (rest.reverse.takeWhile (fun c => !pyIsAlnum c)).reverse with hsuf
  set core := (rest.reverse.dropWhile (fun c => !pyIsAlnum c)).reverse with hcore
  have hw1 : pre ++ rest = w.data := by
    rw [hpre, hrest]; exact List.takeWhile_append_dropWhile _ _
  have hw2 : core ++ suf = rest := by
    rw [hcore, hsuf, ← List.reverse_append, List.takeWhile_append_dropWhile,
      List.reverse_reverse]
  have hcore_sub : ∀ ch ∈ core, ch ∈ w.data := by
    intro ch hc
    have h1 : ch ∈ rest := hw2 ▸ List.mem_append_left _ hc
    exact hw1 ▸ List.mem_append_right _ h1
  by_cases hc : core.isEmpty
  · rw [if_pos hc]
    have hce : core = [] := List.isEmpty_iff.mp hc
    have hse : suf = rest := by rw [← hw2, hce, List.nil_append]
    rw [hse, hw1]
  · rw [if_neg hc]
    have hcl : URDU_WORD_MAP.lookup (String.mk core) = none :=
      urdu_lookup_none_of_unmapped fun ch hch => h ch (hcore_sub ch hch)
    simp only [hcl]
    rw [urdu_char_fallback fun ch hch => h ch (hcore_sub ch hch)]
    calc String.mk pre ++ String.mk core ++ String.mk suf
        = String.mk ((pre ++ core) ++ suf) := rfl
      _ = String.mk w.data := by rw [List.append_assoc, hw2, hw1]
      _ = w := rfl

/-- A token whose characters' singletons all miss `HINDI_CHAR_MAP` comes
back from `romanize_hindi_token` unchanged. -/
lemma romanize_hindi_token_unmapped (w : String)
    (h : ∀ ch ∈ w.data, HINDI_CHAR_MAP.lookup (String.mk [ch]) = none) :
    romanize_hindi_token w = w := by
  unfold romanize_hindi_token
  simp only [hindi_lookup_none_of_unmapped h]
  rw [hindi_char_fallback h]

/-- On whitespace-free input, `pySplitAux` yields the single pending
word. -/
lemma pySplitAux_nospace :
    ∀ (l acc : List Char), (∀ ch ∈ l, pyIsSpace ch = false) →
      pySplitAux l acc =
        if acc.isEmpty && l.isEmpty then [] else [acc.reverse ++ l] := by
  intro l
  induction l with
  | nil =>
    intro acc _
    by_cases ha : acc.isEmpty <;> simp [pySplitAux, ha]
  | cons c cs ih =>
    intro acc h
    have hc : pyIsSpace c = false := h c (List.mem_cons_self c cs)
    have hcs : ∀ ch ∈ cs, pyIsSpace ch = false :=
      fun ch hch => h ch (List.mem_cons_of_mem _ hch)
    simp [pySplitAux, hc, ih (c :: acc) hcs, List.reverse_cons, List.append_assoc]

/-- The Urdu romanizer is the identity on whitespace-free text whose
characters all miss `URDU_CHAR_MAP`. -/
lemma romanize_urdu_text_unmapped (t : String)
    (hs : ∀ ch ∈ t.data, pyIsSpace ch = false)
    (h : ∀ ch ∈ t.data, URDU_CHAR_MAP.lookup ch = none) :
    romanize_urdu_text t = t := by
  unfold romanize_urdu_text pySplit pySplitList
  rw [pySplitAux_nospace t.data [] hs]
  by_cases ht : t.data.isEmpty
  · have hte : t.data = [] := List.isEmpty_iff.mp ht
    rw [if_pos (by simp [ht])]
    calc String.intercalate " " (([] : List (List Char)).map String.mk |>.map romanize_urdu_token)
        = String.mk [] := rfl
      _ = String.mk t.data := by rw [hte]
      _ = t := rfl
  · rw [if_neg (by simp [ht])]
    simp only [List.reverse_nil, List.nil_append, List.map_cons, List.map_nil]
    rw [show String.mk t.data = t from rfl, romanize_urdu_token_unmapped t h]
    rfl

/-- The Hindi romanizer is the identity on whitespace-free text whose
characters' singletons all miss `HINDI_CHAR_MAP`. -/
lemma romanize_hindi_text_unmapped (t : String)
    (hs : ∀ ch ∈ t.data, pyIsSpace ch = false)
    (h : ∀ ch ∈ t.data, HINDI_CHAR_MAP.lookup (String.mk [ch]) = none) :
    romanize_hindi_text t = t := by
  unfold romanize_hindi_text pySplit pySplitList
  rw [pySplitAux_nospace t.data [] hs]
  by_cases ht : t.data.isEmpty
  · have hte : t.data = [] := List.isEmpty_iff.mp ht
    rw [if_pos (by simp [ht])]
    calc String.intercalate " " (([] : List (List Char)).map String.mk |>.map romanize_hindi_token)
        = String.mk [] := rfl
      _ = String.mk t.data := by rw [hte]
      _ = t := rfl
  · rw [if_neg (by simp [ht])]
    simp only [List.reverse_nil, List.nil_append, List.map_cons, List.map_nil]
    rw [show String.mk t.data = t from rfl, romanize_hindi_token_unmapped t h]
    rfl

end Lemmas

/-- C1: the Urdu romanizer maps the input `"میں تم سے پیار کرتا ہوں"` to
exactly `"main tum se pyaar karta hoon"`, and the single token `"سلام!"`
to exactly `"salaam!"` (dictionary lookup first, then punctuation
stripping, then word-map lookup of the stripped core, then per-character
fallback, reattaching the stripped ends). -/
theorem urdu_romanizer_examples :
    romanize_urdu_text "میں تم سے پیار کرتا ہوں" = "main tum se pyaar karta hoon" ∧
    romanize_urdu_text "سلام!" = "salaam!" := by
  decide

/-- C2: `clean_hinglish "maiM tumase pyAra karatA hU.n"` returns exactly
`"main tumse pyaar karta hoon"`, via diacritic-digraph replacement, the
word-substitution table, lowercasing and vowel-run collapsing. -/
theorem clean_hinglish_example :
    clean_hinglish "maiM tumase pyAra karatA hU.n" = "main tumse pyaar karta hoon" := by
  decide

/-- C3: for every text and every target code matched by no dispatcher
branch, `romanize_text` returns the input unchanged; and for every code it
returns empty text unchanged. -/
theorem dispatcher_default_passthrough :
    (∀ (eng : Engines) (t c : String), dispatcherUnmatched c = true →
      romanize_text eng t c = Except.ok t) ∧
    (∀ (eng : Engines) (c : String), romanize_text eng "" c = Except.ok "") := by
  constructor
  · intro eng t c h
    simp only [dispatcherUnmatched, Bool.and_eq_true, Bool.not_eq_true'] at h
    obtain ⟨⟨⟨⟨⟨⟨⟨⟨h1, h2⟩, h3⟩, h4⟩, h5⟩, h6⟩, h7⟩, h8⟩, h9⟩ := h
    exact romanize_passthrough eng t c h1 h2 h3 h4 h5 h6 h7 h8
  · intro eng c
    simp [romanize_text]

/-- Witness for C3: the unrecognized code `"tr"`, with every engine
present and failing, passes `"hello"` through; empty text passes through
even for an engine code. -/
theorem dispatcher_default_passthrough_witness :
    romanize_text enginesFailing "hello" "tr" = Except.ok "hello" ∧
    romanize_text enginesFailing "" "ja" = Except.ok "" :=
  ⟨dispatcher_default_passthrough.1 enginesFailing "hello" "tr" (by decide),
   dispatcher_default_passthrough.2 enginesFailing "ja"⟩

/-- C4: the safe detector returns `"unknown"` on blank input; at classifier
confidence below 0.90, on text over 90 percent ASCII whose lowercase form
contains an English marker substring, it returns `"en"`; at confidence at
least 0.90 it returns the classifier's code unchanged; and on non-blank
input the result is only ever the classifier's code or `"en"`. -/
theorem detector_behavior (classify : String → String × ℚ) (text : String) :
    ((text = "" ∨ pyStrip text = "") →
      detect_language_safely classify text = "unknown") ∧
    (¬(text = "" ∨ pyStrip text = "") →
      (((classify text).2 < 9 / 10 →
        ((((text.data.filter fun ch => ch.toNat < 128).length : ℚ) /
            ((max 1 text.length : ℕ) : ℚ)) > 9 / 10) →
        (ENGLISH_SIGNALS.any fun sig => pyContains (pyLower text) sig) = true →
        detect_language_safely classify text = "en") ∧
      ((9 : ℚ) / 10 ≤ (classify text).2 →
        detect_language_safely classify text = (classify text).1) ∧
      (detect_language_safely classify text = "en" ∨
        detect_language_safely classify text = (classify text).1))) := by
  constructor
  · intro h
    have hb : (text == "" || pyStrip text == "") = true := by
      rcases h with h | h <;> simp [h]
    simp [detect_language_safely, hb]
  · intro h
    push_neg at h
    obtain ⟨h1, h2⟩ := h
    have hbn : ¬((text == "" || pyStrip text == "") = true) := by simp [h1, h2]
    refine ⟨?_, ?_, ?_⟩
    · intro hc hr hs
      simp only [detect_language_safely]
      rw [if_neg hbn, if_pos hc, if_pos hr, if_pos hs]
    · intro hc
      simp only [detect_language_safely]
      rw [if_neg hbn, if_neg (not_lt.mpr hc)]
    · by_cases hc : (classify text).2 < 9 / 10
      · by_cases hr : (((text.data.filter fun ch => ch.toNat < 128).length : ℚ) /
            ((max 1 text.length : ℕ) : ℚ)) > 9 / 10
        · by_cases hs : (ENGLISH_SIGNALS.any fun sig => pyContains (pyLower text) sig) = true
          · left
            simp only [detect_language_safely]
            rw [if_neg hbn, if_pos hc, if_pos hr, if_pos hs]
          · right
            simp only [detect_language_safely]
            rw [if_neg hbn, if_pos hc, if_pos hr, if_neg hs]
        · right
          simp only [detect_language_safely]
          rw [if_neg hbn, if_pos hc, if_neg hr]
      · right
        simp only [detect_language_safely]
        rw [if_neg hbn, if_neg hc]

/-- Witness for C4: blank input is `"unknown"`; a low-confidence classifier
on short ASCII text containing `" hi "` is overridden to `"en"`; a
high-confidence Russian classification is returned unchanged. -/
theorem detector_behavior_witness :
    detect_language_safely clfFrLow "" = "unknown" ∧
    detect_language_safely clfFrLow "oh hi there" = "en" ∧
    detect_language_safely clfRuHigh "da net" = "ru" := by
  refine ⟨(detector_behavior clfFrLow "").1 (Or.inl rfl), ?_, ?_⟩
  · refine ((detector_behavior clfFrLow "oh hi there").2 (by decide)).1 ?_ ?_ (by decide)
    · show (1 : ℚ) / 2 < 9 / 10
      norm_num
    · rw [show (("oh hi there".data.filter fun ch => ch.toNat < 128).length) = 11 from by decide]
      rw [show (max 1 "oh hi there".length : ℕ) = 11 from by decide]
      norm_num
  · exact ((detector_behavior clfRuHigh "da net").2 (by decide)).2.1 (by norm_num [clfRuHigh])

/-- Counterexample for C5: with the translation call failing and a present
Japanese engine that raises, the pipeline for target `"ja"` propagates the
romanization failure instead of returning a triple. -/
theorem translation_failure_counterexample :
    translate_and_romanize enginesFailing clfEnHigh trFailNet "x" "ja" =
      Except.error "engine failure" ∧
    (translate_and_romanize enginesFailing clfEnHigh trFailNet "x" "ja").isOk = false := by
  exact ⟨rfl, rfl⟩

/-- C5 (amended): when the external translation call fails, the failure is
never propagated: the translated component becomes the literal diagnostic
string embedding the error message and romanization is applied to it — the
pipeline result is exactly the romanization of the diagnostic, which yields
the full triple unless that romanization step itself raises (possible only
on the unguarded Japanese engine path). -/
theorem translation_failure_amended
    (eng : Engines) (classify : String → String × ℚ)
    (translator : String → String → Except String String) (text tgt e : String)
    (h : translator (normalize_target_lang tgt) text = Except.error e) :
    translate_and_romanize eng classify translator text tgt =
      (romanize_text eng ("(translation error: " ++ e ++ ")")
          (normalize_target_lang tgt)).map
        (fun r => (detect_language_safely classify text,
                   "(translation error: " ++ e ++ ")", r)) := by
  simp only [translate_and_romanize, h]
  cases hw : romanize_text eng ("(translation error: " ++ e ++ ")")
      (normalize_target_lang tgt) <;> simp [hw, Except.map]

/-- Witness for C5 (amended): a failing translator with target `"fr"`
yields the diagnostic string, romanized unchanged by the Latin branch. -/
theorem translation_failure_amended_witness :
    translate_and_romanize enginesNone clfEnHigh trFailNet "x" "fr" =
      Except.ok ("en", "(translation error: net down)", "(translation error: net down)") := by
  have h := translation_failure_amended enginesNone clfEnHigh trFailNet "x" "fr" "net down" rfl
  rw [h]
  have hd : detect_language_safely clfEnHigh "x" = "en" := by
    simp only [detect_language_safely]
    rw [if_neg (by decide), if_neg (by norm_num [clfEnHigh])]
    rfl
  rw [hd]
  rfl

/-- Counterexample for C6: a present Japanese engine that raises makes the
dispatcher propagate the failure instead of returning the input. -/
theorem japanese_engine_failure_counterexample :
    romanize_text enginesFailing "x" "ja" = Except.error "engine failure" ∧
    romanize_text enginesFailing "x" "ja" ≠ Except.ok "x" := by
  constructor
  · rfl
  · intro h
    rw [show romanize_text enginesFailing "x" "ja" = Except.error "engine failure" from rfl] at h
    exact Except.noConfusion h

/-- C6 (amended): the dispatcher never raises provided a present Japanese
engine does not raise on the given text (the Japanese call is the one
unguarded engine call); with all engines absent every engine branch
returns the input unchanged; with failing engines the guarded Chinese,
Korean, Cyrillic and Greek branches return the input unchanged; and every
built-in romanizer passes unmapped characters through unchanged: the
Arabic romanizer is the identity on strings of unmapped characters, and
the Urdu and Hindi romanizers are the identity on whitespace-free strings
of characters outside their word and char maps (on general strings they
only normalize inter-token whitespace). -/
theorem dispatcher_totality_amended :
    (∀ (eng : Engines) (t c : String),
      (∀ f, eng.pykakasi = some f → (f t).isOk = true) →
      (romanize_text eng t c).isOk = true) ∧
    (∀ t c : String,
      (jaCode (pyLower c) || zhCode (pyLower c) || koCode (pyLower c) ||
       cyrCode (pyLower c) || elCode (pyLower c)) = true →
      romanize_text enginesNone t c = Except.ok t) ∧
    (∀ t c : String,
      (zhCode (pyLower c) || koCode (pyLower c) ||
       cyrCode (pyLower c) || elCode (pyLower c)) = true →
      romanize_text enginesFailing t c = Except.ok t) ∧
    (∀ t : String, (∀ d ∈ t.data, ARABIC_CHAR_MAP.lookup d = none) →
      romanize_arabic_like t = t) ∧
    (∀ t : String, (∀ ch ∈ t.data, pyIsSpace ch = false) →
      (∀ ch ∈ t.data, URDU_CHAR_MAP.lookup ch = none) →
      romanize_urdu_text t = t) ∧
    (∀ t : String, (∀ ch ∈ t.data, pyIsSpace ch = false) →
      (∀ ch ∈ t.data, HINDI_CHAR_MAP.lookup (String.mk [ch]) = none) →
      romanize_hindi_text t = t) := by
  refine ⟨romanize_isOk, ?_, ?_, ?_, romanize_urdu_text_unmapped, romanize_hindi_text_unmapped⟩
  · intro t c h
    by_cases ht : t = ""
    · subst ht; simp [romanize_text]
    · simp only [Bool.or_eq_true] at h
      rcases h with (((hja | hzh) | hko) | hcyr) | hel
      · simp [romanize_text, ht, hja, enginesNone]
      · have e := zh_excl hzh
        simp [romanize_text, ht, hzh, e, enginesNone]
      · obtain ⟨e1, e2⟩ := ko_excl hko
        simp [romanize_text, ht, hko, e1, e2, enginesNone]
      · obtain ⟨e1, e2, e3, e4, e5, e6⟩ := cyr_excl hcyr
        simp [romanize_text, ht, hcyr, e1, e2, e3, e4, e5, e6, enginesNone]
      · obtain ⟨e1, e2, e3, e4, e5, e6, e7⟩ := el_excl hel
        simp [romanize_text, ht, hel, e1, e2, e3, e4, e5, e6, e7, enginesNone]
  · intro t c h
    by_cases ht : t = ""
    · subst ht; simp [romanize_text]
    · simp only [Bool.or_eq_true] at h
      rcases h with ((hzh | hko) | hcyr) | hel
      · have e := zh_excl hzh
        simp [romanize_text, ht, hzh, e, enginesFailing]
      · obtain ⟨e1, e2⟩ := ko_excl hko
        simp [romanize_text, ht, hko, e1, e2, enginesFailing]
      · obtain ⟨e1, e2, e3, e4, e5, e6⟩ := cyr_excl hcyr
        simp [romanize_text, ht, hcyr, e1, e2, e3, e4, e5, e6, enginesFailing]
      · obtain ⟨e1, e2, e3, e4, e5, e6, e7⟩ := el_excl hel
        simp [romanize_text, ht, hel, e1, e2, e3, e4, e5, e6, e7, enginesFailing]
  · intro t h
    unfold romanize_arabic_like
    rw [arabicMapList_of_unmapped t.data h]

/-- Witness for C6 (amended): a Japanese code with no engine is total and
passes through; a failing Chinese engine is caught; fully-unmapped text is
fixed by the Arabic, Urdu and Hindi romanizers. -/
theorem dispatcher_totality_amended_witness :
    (romanize_text enginesNone "x" "ja").isOk = true ∧
    romanize_text enginesNone "x" "ja" = Except.ok "x" ∧
    romanize_text enginesFailing "x" "zh-CN" = Except.ok "x" ∧
    romanize_arabic_like "xyz" = "xyz" ∧
    romanize_urdu_text "xyz!" = "xyz!" ∧
    romanize_hindi_text "qrs?" = "qrs?" :=
  ⟨dispatcher_totality_amended.1 enginesNone "x" "ja"
      (fun _ hf => Option.noConfusion hf),
   dispatcher_totality_amended.2.1 "x" "ja" (by decide),
   dispatcher_totality_amended.2.2.1 "x" "zh-CN" (by decide),
   dispatcher_totality_amended.2.2.2.1 "xyz" (by decide),
   dispatcher_totality_amended.2.2.2.2.1 "xyz!" (by decide) (by decide),
   dispatcher_totality_amended.2.2.2.2.2 "qrs?" (by decide) (by decide)⟩

/-- Counterexample for C7: the whitespace-only input `" "` is blank but the
normalizer returns the empty string, not the default `"en"`. -/
theorem normalize_blank_counterexample :
    normalize_target_lang " " = "" ∧ normalize_target_lang " " ≠ "en" := by
  decide

/-- C7 (amended): only the empty input gets the default `"en"`; a
whitespace-only non-empty input strips to the empty key, which is not in
the table and is returned as-is (the empty string). -/
theorem normalize_blank_amended :
    normalize_target_lang "" = "en" ∧
    ∀ s : String, s ≠ "" → pyStrip s = "" → normalize_target_lang s = "" := by
  constructor
  · rfl
  · intro s h1 h2
    simp only [normalize_target_lang]
    rw [if_neg (by simp [h1]), h2]
    decide

/-- Witness for C7 (amended): the one-space input. -/
theorem normalize_blank_amended_witness :
    normalize_target_lang " " = "" :=
  normalize_blank_amended.2 " " (by decide) (by decide)

/-- Counterexample for C8: the empty input has a trimmed-lowercased form
(`""`) that is not a table key, yet the normalizer returns `"en"`, not that
form. -/
theorem normalize_empty_counterexample :
    LANG_MAP.lookup (pyLower (pyStrip "")) = none ∧
    normalize_target_lang "" ≠ pyLower (pyStrip "") := by
  decide

/-- C8 (amended): the normalizer trims and lowercases its input and looks
it up in the table (`"Russian"` to `"ru"`, `"zh-tw"` to `"zh-TW"`); every
NON-EMPTY input whose trimmed-lowercased form is not a table key yields
that form unchanged, never raising (the empty input short-circuits to
`"en"`). -/
theorem normalize_table_amended :
    normalize_target_lang "Russian" = "ru" ∧
    normalize_target_lang "zh-tw" = "zh-TW" ∧
    normalize_target_lang "unknownxyz" = "unknownxyz" ∧
    ∀ s : String, s ≠ "" → LANG_MAP.lookup (pyLower (pyStrip s)) = none →
      normalize_target_lang s = pyLower (pyStrip s) := by
  refine ⟨by decide, by decide, by decide, ?_⟩
  intro s h1 h2
  simp only [normalize_target_lang]
  rw [if_neg (by simp [h1]), h2]
  rfl

/-- Witness for C8 (amended): an unknown code passes through. -/
theorem normalize_table_amended_witness :
    normalize_target_lang "qq" = "qq" :=
  (normalize_table_amended.2.2.2 "qq" (by decide) (by decide)).trans (by decide)

/-- C9: for every text and every Latin-set target code the dispatcher is
the identity, and the Arabic char-map romanizer is idempotent: a second
application is a no-op on its own output. -/
theorem romanize_idempotent :
    (∀ (eng : Engines) (t c : String),
      pyLower c ∈ (["en", "fr", "es", "it", "la", "de", "pt"] : List String) →
      romanize_text eng t c = Except.ok t) ∧
    (∀ t : String,
      romanize_arabic_like (romanize_arabic_like t) = romanize_arabic_like t) := by
  constructor
  · intro eng t c h
    have hl : latinCode (pyLower c) = true := by
      simp only [List.mem_cons, List.not_mem_nil, or_false] at h
      rcases h with h | h | h | h | h | h | h <;> rw [h] <;> decide
    obtain ⟨e1, e2, e3, e4, e5, e6, e7, e8⟩ := latin_excl hl
    exact romanize_passthrough eng t c e1 e2 e3 e4 e5 e6 e7 e8
  · intro t
    unfold romanize_arabic_like
    exact congrArg String.mk (arabicMapList_idem t.data)

/-- Witness for C9: the code `"EN"` passes text through even with failing
engines; re-romanizing a romanized Arabic string changes nothing. -/
theorem romanize_idempotent_witness :
    romanize_text enginesFailing "bonjour" "EN" = Except.ok "bonjour" ∧
    romanize_arabic_like (romanize_arabic_like "سلام") = romanize_arabic_like "سلام" :=
  ⟨romanize_idempotent.1 enginesFailing "bonjour" "EN" (by decide),
   romanize_idempotent.2 "سلام"⟩

/-- C10: `LANG_MAP` keys Dutch as the capitalized `"Dutch"` while the
normalizer lowercases before lookup, so every casing of the word "dutch"
passes through as `"dutch"` and never yields `"nl"`, even though the short
code `"nl"` maps to `"nl"`. -/
theorem dutch_unreachable :
    LANG_MAP.lookup "Dutch" = some "nl" ∧
    LANG_MAP.lookup "dutch" = none ∧
    normalize_target_lang "nl" = "nl" ∧
    ∀ s : String, pyLower (pyStrip s) = "dutch" → normalize_target_lang s = "dutch" := by
  refine ⟨by decide, by decide, by decide, ?_⟩
  intro s h
  have h1 : s ≠ "" := by
    intro e
    rw [e] at h
    exact absurd h (by decide)
  simp only [normalize_target_lang]
  rw [if_neg (by simp [h1]), h]
  decide

/-- Witness for C10: the input `"DUTCH"` normalizes to `"dutch"`. -/
theorem dutch_unreachable_witness :
    normalize_target_lang "DUTCH" = "dutch" :=
  dutch_unreachable.2.2.2 "DUTCH" (by decide)

end Translingo

